import Mathlib

/-!
Verification of the release-vote tabulation and resolution subsystem.

The Python modules `atr/tabulate.py`, `atr/storage/writers/vote.py` and
`atr/db/interaction.py` are shallowly embedded below.  Python strings are
Lean `String`s, Python `dict`s (which are insertion-ordered) are association
lists updated in place, machine integers are `Int`/`Nat`, floats are `ℚ`,
and fallible code returns `Except`/`Option`.  External collaborators that
are not part of the embedded sources (the LDAP map, `util.email_from_uid`,
the mail archive, the database) are passed in as explicit parameters.
-/

namespace ATR

/-! ## String helpers (models of the Python `str` operations used) -/

/-- `isPrefixList p s`: the list `p` is a leading segment of `s`. -/
def isPrefixList : List Char → List Char → Bool
  | [], _ => true
  | _ :: _, [] => false
  | a :: as, b :: bs => a == b && isPrefixList as bs

/-- Model of Python `s.startswith(p)`. -/
def strStarts (s p : String) : Bool := isPrefixList p.data s.data

/-- Model of Python `s.endswith(p)`. -/
def strEnds (s p : String) : Bool := isPrefixList p.data.reverse s.data.reverse

/-- `containsList s p`: the list `p` occurs contiguously inside `s`. -/
def containsList : List Char → List Char → Bool
  | [], p => p.isEmpty
  | c :: cs, p => isPrefixList p (c :: cs) || containsList cs p

/-- Model of Python `p in s` for strings. -/
def strHas (s p : String) : Bool := containsList s.data p.data

/-- Model of Python `s.removeprefix(p)`. -/
def stripLeading (s p : String) : String :=
  if strStarts s p then ⟨s.data.drop p.data.length⟩ else s

/-- Model of Python `s.removesuffix(p)`. -/
def stripTrailing (s p : String) : String :=
  if strEnds s p then ⟨s.data.take (s.data.length - p.data.length)⟩ else s

/-- Model of the Python slice `s[a:b]` (character based, clamped). -/
def pySlice (s : String) (a b : Nat) : String := ⟨(s.data.drop a).take (b - a)⟩

/-- Split a character list on a separator character; Python `str.split(sep)`
semantics: `"a..b".split(".") == ["a", "", "b"]` and `"".split(".") == [""]`. -/
def splitCharList (sep : Char) : List Char → List (List Char)
  | [] => [[]]
  | c :: cs =>
    if c == sep then [] :: splitCharList sep cs
    else
      match splitCharList sep cs with
      | [] => [[c]]
      | p :: ps => (c :: p) :: ps

/-- Model of Python `s.split(sep)` for a one-character separator. -/
def splitChar (s : String) (sep : Char) : List String :=
  (splitCharList sep s.data).map (fun l => ⟨l⟩)

/-- Model of Python `s.split(sep)[0]` for a one-character separator. -/
def firstField (s : String) (sep : Char) : String :=
  match splitChar s sep with
  | [] => s
  | p :: _ => p

/-- Model of Python `s.split(sep)[-1]` for a one-character separator. -/
def lastField (s : String) (sep : Char) : String :=
  (splitChar s sep).getLastD s

/-- Model of Python `s.rsplit(sep, 1)[0]` for a one-character separator:
everything before the last occurrence of `sep`, or all of `s` when absent. -/
def beforeLastField (s : String) (sep : Char) : String :=
  if s.data.contains sep then ⟨(((s.data.reverse).dropWhile (fun c => c != sep)).drop 1).reverse⟩
  else s

/-- Model of Python `s.upper()` for the ASCII strings used here. -/
def pyUpper (s : String) : String := ⟨s.data.map Char.toUpper⟩

/-! ## `atr/tabulate.py`: data model -/

/-- `class Vote(enum.Enum)` from `tabulate.py`. -/
inductive Vote
  | YES
  | NO
  | ABSTAIN
  | UNKNOWN
deriving DecidableEq, Repr

/-- The `.value` of each `Vote` member, as in the source
(`YES = "Yes"`, `NO = "No"`, `ABSTAIN = "-"`, `UNKNOWN = "?"`). -/
def Vote.value : Vote → String
  | .YES => "Yes"
  | .NO => "No"
  | .ABSTAIN => "-"
  | .UNKNOWN => "?"

/-- `class VoteStatus(enum.Enum)` from `tabulate.py`. -/
inductive VoteStatus
  | BINDING
  | COMMITTER
  | CONTRIBUTOR
  | UNKNOWN
deriving DecidableEq, Repr

/-- `class VoteEmail(schema.Strict)` from `tabulate.py`. -/
structure VoteEmail where
  asf_uid_or_email : String
  from_email : String
  status : VoteStatus
  asf_eid : String
  iso_datetime : String
  vote : Vote
  quotation : String
  updated : Bool
deriving DecidableEq, Repr

/-- Committee fields consulted by the tabulator and the vote writer
(`models.Committee`): membership rosters and the podling flag. -/
structure Committee where
  name : String
  display_name : String
  is_podling : Bool
  committee_members : List String
  committers : List String
deriving DecidableEq, Repr

/-- One archived mail message as yielded by `util.thread_messages`:
the fields read by `votes` are `from_raw`, `list_raw`, `subject`, `body`,
`epoch` (modelled parsed, `none` for the empty string), `mid` and `date`. -/
structure Msg where
  from_raw : String
  list_raw : String
  subject : String
  body : String
  epoch : Option Int
  mid : String
  date : String
deriving DecidableEq, Repr

/-! ## `atr/tabulate.py`: ballot parsing -/

/-- `_vote_break` from `tabulate.py`. -/
def vote_break (line : String) : Bool :=
  if line == "-- " then true
  else if strStarts line "On " && (pySlice line 6 8 == ", ") then true
  else if strStarts line "From: " then true
  else if strStarts line "________" then true
  else false

/-- `_vote_continue` from `tabulate.py`. -/
def vote_continue (line : String) : Bool :=
  if ["[ ] +1", "[ ] -1", "binding +1 votes", "binding -1 votes"].any
      (fun indicator => strHas line indicator) then true
  else if strStarts line ">" then true
  else false

/-- The `plus_one` test of `_vote_castings`. -/
def plus_one_test (line : String) : Bool := strStarts line "+1" || strHas line " +1"

/-- The `minus_one` test of `_vote_castings`. -/
def minus_one_test (line : String) : Bool := strStarts line "-1" || strHas line " -1"

/-- The `zero` test of `_vote_castings`. -/
def zero_test (line : String) : Bool :=
  line == "0" || line == "-0" || line == "+0" ||
    strStarts line "0 " || strStarts line "+0 " || strStarts line "-0 "

/-- The per-line classification step of the `_vote_castings` loop body
(after the continue/break tests). -/
def line_castings (line : String) : List (Vote × String) :=
  let p := plus_one_test line
  let m := minus_one_test line
  let z := zero_test line
  if (p && m) || (p && z) || (m && z) then []
  else if p then [(Vote.YES, line)]
  else if m then [(Vote.NO, line)]
  else if z then [(Vote.ABSTAIN, line)]
  else []

/-- The line loop of `_vote_castings`: skip on continue, stop on break. -/
def vote_castings_lines : List String → List (Vote × String)
  | [] => []
  | line :: rest =>
    if vote_continue line then vote_castings_lines rest
    else if vote_break line then []
    else line_castings line ++ vote_castings_lines rest

/-- `_vote_castings` from `tabulate.py`: `body.split("\n")` then the loop. -/
def vote_castings (body : String) : List (Vote × String) :=
  vote_castings_lines (splitChar body '\n')

/-! ## `atr/tabulate.py`: identity and status -/

/-- `_vote_identity` from `tabulate.py`.  `emailFromUid` models
`util.email_from_uid` (external; returns `""` when no address is found) and
`email_to_uid` models the LDAP snapshot `dict`. -/
def vote_identity (emailFromUid : String → String) (email_to_uid : List (String × String))
    (from_raw : String) : Bool × String × Option String :=
  let from_email_lower := emailFromUid from_raw
  if from_email_lower == "" then (false, "", none)
  else
    let from_email_lower := stripTrailing from_email_lower ".invalid"
    let asf_uid : Option String :=
      if strEnds from_email_lower "@apache.org" then some (firstField from_email_lower '@')
      else match email_to_uid.find? (fun p => p.1 == from_email_lower) with
        | some p => some p.2
        | none => none
    (true, from_email_lower, asf_uid)

/-- `_vote_status` from `tabulate.py`, production path (the
`util.is_dev_environment()` branch, which replaces the committee by a
database lookup keyed on `list_raw`, is not modelled; `list_raw` is kept
as a parameter to mirror the signature). -/
def vote_status (asf_uid : String) (_list_raw : String) (committee : Option Committee) :
    VoteStatus :=
  match committee with
  | none => VoteStatus.UNKNOWN
  | some c =>
    if c.committee_members.contains asf_uid then VoteStatus.BINDING
    else if c.committers.contains asf_uid then VoteStatus.COMMITTER
    else VoteStatus.CONTRIBUTOR

/-! ## `atr/tabulate.py`: the tabulation loop `votes` -/

/-- The external inputs of `votes`: the `util.email_from_uid` parser, the
LDAP `email_to_uid` snapshot, and the optional committee. -/
structure TabEnv where
  emailFromUid : String → String
  email_to_uid : List (String × String)
  committee : Option Committee

/-- Python `dict` membership for an insertion-ordered association list. -/
def dictHasKey {α : Type} : List (String × α) → String → Bool
  | [], _ => false
  | p :: t, k => p.1 == k || dictHasKey t k

/-- Python `dict` assignment: replace in place, else append. -/
def dictPut {α : Type} : List (String × α) → String → α → List (String × α)
  | [], k, v => [(k, v)]
  | (k', v') :: t, k, v =>
    if k' == k then (k, v) :: t else (k', v') :: dictPut t k v

/-- Python `dict` lookup (`tab[k]` as an `Option`). -/
def dictGet {α : Type} : List (String × α) → String → Option α
  | [], _ => none
  | p :: t, k => if p.1 == k then some p.2 else dictGet t k

/-- Whether the message passes the `_vote_identity` validity test. -/
def identityOk (env : TabEnv) (m : Msg) : Bool :=
  (vote_identity env.emailFromUid env.email_to_uid m.from_raw).1

/-- The voter key used by `votes`: the ASF uid when resolved, else the
normalized sender address (`asf_uid_or_email`). -/
def voterKey (env : TabEnv) (m : Msg) : String :=
  let r := vote_identity env.emailFromUid env.email_to_uid m.from_raw
  match r.2.2 with
  | some uid => uid
  | none => r.2.1

/-- The `VoteStatus` assigned to the message by the `votes` loop. -/
def msgStatus (env : TabEnv) (m : Msg) : VoteStatus :=
  let r := vote_identity env.emailFromUid env.email_to_uid m.from_raw
  match r.2.2 with
  | some uid => vote_status uid m.list_raw env.committee
  | none => VoteStatus.UNKNOWN

/-- The `VoteEmail` built at lines 102–111 of `tabulate.py` for a message
whose castings are non-empty; `updated` is the `asf_uid_or_email in
tabulated_votes` test at insertion time. -/
def mkVoteEmail (env : TabEnv) (m : Msg) (updated : Bool) : VoteEmail :=
  let r := vote_identity env.emailFromUid env.email_to_uid m.from_raw
  let castings := vote_castings m.body
  { asf_uid_or_email := voterKey env m
    from_email := r.2.1
    status := msgStatus env m
    asf_eid := m.mid
    iso_datetime := m.date
    vote := match castings with
      | [c] => c.1
      | _ => Vote.UNKNOWN
    quotation := String.intercalate " // " (castings.map (fun c => c.2))
    updated := updated }

/-- The message loop of `votes` (`async for _mid, msg in
util.thread_messages(thread_id)` with the running `start_unixtime` and
`tabulated_votes` state; encountering a `"[RESULT]"` subject on an
identity-valid message stops the iteration). -/
def votesGo (env : TabEnv) : List Msg → Option Int → List (String × VoteEmail) →
    Option Int × List (String × VoteEmail)
  | [], st, tab => (st, tab)
  | m :: rest, st, tab =>
    if identityOk env m then
      let st' := match st with
        | some e => some e
        | none => m.epoch
      if strHas m.subject "[RESULT]" then (st', tab)
      else if m.body == "" then votesGo env rest st' tab
      else if (vote_castings m.body).isEmpty then votesGo env rest st' tab
      else
        votesGo env rest st'
          (dictPut tab (voterKey env m) (mkVoteEmail env m (dictHasKey tab (voterKey env m))))
    else votesGo env rest st tab

/-- `votes` from `tabulate.py`: returns `(start_unixtime, tabulated_votes)`. -/
def votes (env : TabEnv) (msgs : List Msg) : Option Int × List (String × VoteEmail) :=
  votesGo env msgs none []

/-- A message stops the tabulation loop: identity-valid with a subject
containing `"[RESULT]"` (identity-invalid messages are skipped before the
subject test). -/
def cutsMsg (env : TabEnv) (m : Msg) : Bool :=
  identityOk env m && strHas m.subject "[RESULT]"

/-- A message contributes an entry to the tabulated map: identity-valid,
not the `"[RESULT]"` cutoff, non-empty body, and at least one casting. -/
def contribMsg (env : TabEnv) (m : Msg) : Bool :=
  identityOk env m && !(strHas m.subject "[RESULT]") && !(m.body == "") &&
    !(vote_castings m.body).isEmpty

/-- The effect, on the key `k`, of inserting the contributing messages of
one voter in order: each insertion records whether the key was already
present (`updated`). -/
def applyGet (env : TabEnv) (k : String) (tab : List (String × VoteEmail)) :
    List Msg → Option VoteEmail
  | [] => dictGet tab k
  | m :: ms => applyGet env k (dictPut tab k (mkVoteEmail env m (dictHasKey tab k))) ms

/-! ## Release data model (`atr/models/sql`, fields used by the embedded code) -/

/-- `sql.ReleasePhase` values used by the vote subsystem. -/
inductive ReleasePhase
  | RELEASE_CANDIDATE_DRAFT
  | RELEASE_CANDIDATE
  | RELEASE_PREVIEW
  | RELEASE
deriving DecidableEq, Repr

/-- `sql.ReleasePolicy`, fields used here: `min_hours` (optional in the
model; Python treats both `None` and `0` as falsy). -/
structure ReleasePolicy where
  min_hours : Option Nat
deriving DecidableEq, Repr

/-- `sql.Project`, fields used by the embedded code. -/
structure Project where
  name : String
  display_name : String
  committee : Option Committee
  release_policy : Option ReleasePolicy
deriving DecidableEq, Repr

/-- `sql.Release`, fields used by the embedded code.  `project` is optional
(`vote_outcome` guards `release.project is not None`); `committee` mirrors
the separate `release.committee` relationship checked in `resolve`. -/
structure Release where
  name : String
  version : String
  phase : ReleasePhase
  podling_thread_id : Option String
  latest_revision_number : Option String
  project : Option Project
  committee : Option Committee
deriving DecidableEq, Repr

/-! ## `atr/tabulate.py`: outcome evaluation -/

/-- The five f-string messages produced by `_vote_outcome_format`, as an
inductive carrying the rounded remaining hours where the template embeds
it.  `stillOpenWouldPass h` renders as "The vote is still open for {h}
hours, but it would pass if closed now.", `stillOpenWouldFail h`
correspondingly with "fail"; `passed` is "The vote passed.", `failed` is
"The vote failed.", and `wouldFailIfClosedNow` is "The vote would fail if
closed now.". -/
inductive OutcomeMsg
  | stillOpenWouldFail (hours : ℚ)
  | wouldFailIfClosedNow
  | failed
  | stillOpenWouldPass (hours : ℚ)
  | passed
deriving DecidableEq

/-- Model of Python `round(x, 2)` on the exact rational value. -/
def pyRound2 (x : ℚ) : ℚ := (round (100 * x) : ℤ) / 100

/-- `_vote_outcome_format` from `tabulate.py`. -/
def vote_outcome_format (duration_hours_remaining : Option ℚ)
    (binding_plus_one binding_minus_one : Nat) : Bool × OutcomeMsg :=
  let outcome_passed := (3 ≤ binding_plus_one) && (binding_minus_one < binding_plus_one)
  if !outcome_passed then
    match duration_hours_remaining with
    | some r =>
      if 0 < r then (false, OutcomeMsg.stillOpenWouldFail (pyRound2 r))
      else (false, OutcomeMsg.failed)
    | none => (false, OutcomeMsg.wouldFailIfClosedNow)
  else
    match duration_hours_remaining with
    | some r =>
      if 0 < r then (true, OutcomeMsg.stillOpenWouldPass (pyRound2 r))
      else (true, OutcomeMsg.passed)
    | none => (true, OutcomeMsg.passed)

/-- The `min_duration_hours` computation at lines 142–145 of `tabulate.py`:
initialized to `72`, overwritten by `release_policy.min_hours or None` when
the release has a project with a policy. -/
def minDurationHours (release : Release) : Option ℚ :=
  match release.project with
  | none => some 72
  | some p =>
    match p.release_policy with
    | none => some 72
    | some pol =>
      match pol.min_hours with
      | none => none
      | some 0 => none
      | some n => some (n : ℚ)

/-- The `duration_hours` computation at lines 137–140 of `tabulate.py`. -/
def durationHours (now : Int) (start_unixtime : Option Int) : ℚ :=
  match start_unixtime with
  | none => 0
  | some s => ((now - s : Int) : ℚ) / 3600

/-- The binding `+1` count of `vote_outcome`. -/
def bindingPlusOne (tab : List (String × VoteEmail)) : Nat :=
  (tab.filter (fun p => p.2.status == VoteStatus.BINDING && p.2.vote == Vote.YES)).length

/-- The binding `-1` count of `vote_outcome`. -/
def bindingMinusOne (tab : List (String × VoteEmail)) : Nat :=
  (tab.filter (fun p => p.2.status == VoteStatus.BINDING && p.2.vote == Vote.NO)).length

/-- `vote_outcome` from `tabulate.py` (`now = int(time.time())` is passed
explicitly). -/
def vote_outcome (release : Release) (now : Int) (start_unixtime : Option Int)
    (tabulated_votes : List (String × VoteEmail)) : Bool × OutcomeMsg :=
  let duration_hours := durationHours now start_unixtime
  let duration_hours_remaining := (minDurationHours release).map (fun m => m - duration_hours)
  vote_outcome_format duration_hours_remaining (bindingPlusOne tabulated_votes)
    (bindingMinusOne tabulated_votes)

/-! ## `atr/tabulate.py`: `vote_summary` -/

/-- The twelve counters of the `vote_summary` result `dict`. -/
structure Summary where
  binding_votes : Nat
  binding_votes_yes : Nat
  binding_votes_no : Nat
  binding_votes_abstain : Nat
  non_binding_votes : Nat
  non_binding_votes_yes : Nat
  non_binding_votes_no : Nat
  non_binding_votes_abstain : Nat
  unknown_votes : Nat
  unknown_votes_yes : Nat
  unknown_votes_no : Nat
  unknown_votes_abstain : Nat
deriving DecidableEq, Repr

/-- The all-zero initial `result` dict of `vote_summary`. -/
def Summary.zero : Summary := ⟨0, 0, 0, 0, 0, 0, 0, 0, 0, 0, 0, 0⟩

/-- The loop body of `vote_summary` for one `VoteEmail`: the per-vote
counters compare `vote_email.vote.value` against the literal strings
`"Yes"`, `"No"` and `"Abstain"`, exactly as in the source. -/
def summaryStep (s : Summary) (ve : VoteEmail) : Summary :=
  if ve.status == VoteStatus.BINDING then
    { s with
      binding_votes := s.binding_votes + 1
      binding_votes_yes := s.binding_votes_yes + (if ve.vote.value == "Yes" then 1 else 0)
      binding_votes_no := s.binding_votes_no + (if ve.vote.value == "No" then 1 else 0)
      binding_votes_abstain :=
        s.binding_votes_abstain + (if ve.vote.value == "Abstain" then 1 else 0) }
  else if ve.status == VoteStatus.COMMITTER || ve.status == VoteStatus.CONTRIBUTOR then
    { s with
      non_binding_votes := s.non_binding_votes + 1
      non_binding_votes_yes := s.non_binding_votes_yes + (if ve.vote.value == "Yes" then 1 else 0)
      non_binding_votes_no := s.non_binding_votes_no + (if ve.vote.value == "No" then 1 else 0)
      non_binding_votes_abstain :=
        s.non_binding_votes_abstain + (if ve.vote.value == "Abstain" then 1 else 0) }
  else
    { s with
      unknown_votes := s.unknown_votes + 1
      unknown_votes_yes := s.unknown_votes_yes + (if ve.vote.value == "Yes" then 1 else 0)
      unknown_votes_no := s.unknown_votes_no + (if ve.vote.value == "No" then 1 else 0)
      unknown_votes_abstain :=
        s.unknown_votes_abstain + (if ve.vote.value == "Abstain" then 1 else 0) }

/-- `vote_summary` from `tabulate.py`: fold of the loop body over the
tabulated map's values. -/
def vote_summary (tabulated_votes : List (String × VoteEmail)) : Summary :=
  tabulated_votes.foldl (fun s p => summaryStep s p.2) Summary.zero

/-! ## `atr/db/interaction.py`: `all_releases` version sorting -/

/-- Model of Python `s.replace(a, b)` for one-character operands. -/
def charReplace (s : String) (a b : Char) : String :=
  ⟨s.data.map (fun c => if c == a then b else c)⟩

/-- Model of Python `int(part)` as used by the fallback `sort_key`: after
the `+`/`-` to `.` replacements the parts carry no sign, so a part parses
exactly when it is a non-empty run of ASCII digits (Python's additional
tolerance for surrounding whitespace, underscore grouping and non-ASCII
digits is not modelled). -/
def pyIntDigits (s : String) : Option Int :=
  if s != "" && s.data.all (fun c => c.isDigit) then
    some (s.data.foldl (fun acc c => acc * 10 + ((c.toNat : Int) - 48)) 0)
  else none

/-- The `sort_key` of `all_releases`: replace `+` and `-` by `.`, split on
`.`, and map each part to `(0, int(part))` when numeric and `(1, part)`
otherwise.  The pair `(0, int)`-before-`(1, str)` tuple ordering is the
lexicographic sum `ℤ ⊕ₗ String`, and Python's tuple comparison is the
lexicographic list order. -/
def sort_key (v : String) : List (Int ⊕ₗ String) :=
  (splitChar (charReplace (charReplace v '+' '.') '-' '.') '.').map
    (fun part =>
      match pyIntDigits part with
      | some n => toLex (Sum.inl n)
      | none => toLex (Sum.inr part))

/-- The PEP-440 key of the primary sort, abstracted: `parse` models
`packaging.version.Version` (external library), returning `none` exactly on
the versions for which it raises `InvalidVersion`; unparseable versions map
to `⊥`, which is irrelevant because the primary sort is only used when
every version parses. -/
def pepKey {P : Type} [LinearOrder P] (parse : String → Option P) (r : Release) : WithBot P :=
  match parse r.version with
  | some x => (x : WithBot P)
  | none => ⊥

/-- `all_releases` from `interaction.py` (the database read is the input
list): `results.sort(key=Version, reverse=True)` when every version parses
(CPython computes all sort keys before reordering, so a raising key leaves
the list unchanged for the `except` branch), else
`results.sort(key=sort_key, reverse=True)`. -/
def all_releases {P : Type} [LinearOrder P] (parse : String → Option P)
    (rs : List Release) : List Release :=
  if rs.all (fun r => (parse r.version).isSome) then
    rs.mergeSort (fun a b => decide (pepKey parse b ≤ pepKey parse a))
  else
    rs.mergeSort (fun a b => decide (sort_key b.version ≤ sort_key a.version))

/-! ## `atr/db/interaction.py`: trusted automation verifier -/

/-- `class TrustedProjectPhase(enum.Enum)` from `interaction.py`. -/
inductive TrustedProjectPhase
  | COMPOSE
  | VOTE
  | FINISH
deriving DecidableEq, Repr

/-- The error kinds raised along the `trusted_jwt` path. -/
inductive TrustError
  | interaction (msg : String)
  | releasePolicyNotFound (msg : String)
  | apacheUserMissing (msg : String)
deriving DecidableEq, Repr

/-- Whether a `trusted_jwt` result is an `InteractionError`. -/
def errIsInteraction {α : Type} : Except TrustError α → Bool
  | .error (.interaction _) => true
  | _ => false

/-- Whether a `trusted_jwt` result is a `ReleasePolicyNotFoundError`. -/
def errIsPolicyNotFound {α : Type} : Except TrustError α → Bool
  | .error (.releasePolicyNotFound _) => true
  | _ => false

/-- `_trusted_project_checks` from `interaction.py`. -/
def trusted_project_checks (repository workflow_ref : String) :
    Except String (String × String) :=
  if !(strStarts repository "apache/") then
    .error "Repository must start with 'apache/'"
  else
    let repository_name := stripLeading repository "apache/"
    if !(strStarts workflow_ref (repository ++ "/")) then
      .error "Workflow ref must start with repository"
    else
      let workflow_path_at := stripLeading workflow_ref (repository ++ "/")
      if !(strHas workflow_path_at "@") then
        .error "Workflow path must contain '@'"
      else
        let workflow_path := beforeLastField workflow_path_at '@'
        if !(strStarts workflow_path ".github/workflows/") then
          .error "Workflow path must start with '.github/workflows/'"
        else .ok (repository_name, workflow_path)

/-- A release policy row as consulted by `_trusted_project`: the GitHub
repository name, the three per-phase workflow-path allowlists, and the
project bound to the policy. -/
structure GithubPolicy where
  github_repository_name : String
  github_compose_workflow_path : List String
  github_vote_workflow_path : List String
  github_finish_workflow_path : List String
  project : Option Project

/-- The allowlist of a policy for a phase (`github_<phase>_workflow_path`). -/
def policyPhasePaths (p : GithubPolicy) : TrustedProjectPhase → List String
  | .COMPOSE => p.github_compose_workflow_path
  | .VOTE => p.github_vote_workflow_path
  | .FINISH => p.github_finish_workflow_path

/-- Modelled from the spec: the database lookup
`db_data.release_policy(github_repository_name=…,
github_<phase>_workflow_path_has=workflow_path)` (the query builder lives
outside the embedded sources) — "Looks up a `ReleasePolicy` whose workflow
allowlist for the specified `phase` contains `workflow_path` and whose
repository name matches". -/
def findPolicy (policies : List GithubPolicy) (repository_name workflow_path : String)
    (phase : TrustedProjectPhase) : Option GithubPolicy :=
  policies.find? (fun p =>
    p.github_repository_name == repository_name &&
      (policyPhasePaths p phase).contains workflow_path)

/-- `_trusted_project` from `interaction.py`: checks, then the policy
lookup (demanded with `ReleasePolicyNotFoundError`), then the project and
its committee (`registry.GITHUB_AUTOMATED_RELEASE_COMMITTEES` is the
`allowCommittees` parameter). -/
def trusted_project (policies : List GithubPolicy) (allowCommittees : List String)
    (repository workflow_ref : String) (phase : TrustedProjectPhase) :
    Except TrustError Project :=
  match trusted_project_checks repository workflow_ref with
  | .error m => .error (.interaction m)
  | .ok (repository_name, workflow_path) =>
    match findPolicy policies repository_name workflow_path phase with
    | none =>
      .error (.releasePolicyNotFound
        ("Release policy for repository " ++ repository_name ++ " and workflow path " ++
          workflow_path ++ " not found"))
    | some pol =>
      match pol.project with
      | none => .error (.interaction "Project for release policy not found")
      | some project =>
        match project.committee with
        | none => .error (.interaction ("Project " ++ project.name ++ " has no committee"))
        | some c =>
          if !(allowCommittees.contains c.name) then
            .error (.interaction
              ("Project " ++ project.name ++ " is not in a committee that can make releases"))
          else .ok project

/-- The claims of an already-verified GitHub OIDC token read by
`trusted_jwt` (`jwtoken.verify_github_oidc` is the external verifier; the
payload it returns is the input here). -/
structure JwtPayload where
  actor_id : String
  repository : String
  workflow_ref : String
deriving DecidableEq, Repr

/-- `trusted_jwt` from `interaction.py`.  `ldapMap` models
`ldap.github_to_apache` (external; failure to map is the
`apacheUserMissing` outcome). -/
def trusted_jwt (ldapMap : String → Option String) (policies : List GithubPolicy)
    (allowCommittees : List String) (publisher : String) (payload : JwtPayload)
    (phase : TrustedProjectPhase) : Except TrustError (JwtPayload × String × Project) :=
  if publisher != "github" then
    .error (.interaction ("Publisher " ++ publisher ++ " not supported"))
  else
    match ldapMap payload.actor_id with
    | none => .error (.apacheUserMissing "unmapped actor")
    | some asf_uid =>
      match trusted_project policies allowCommittees payload.repository payload.workflow_ref
          phase with
      | .error e => .error e
      | .ok project => .ok (payload, asf_uid, project)

/-! ## `atr/storage/writers/vote.py`: the resolution orchestrator -/

/-- The fields of the `latest_vote_task` read by the vote writer:
`task_args["vote_duration"]`, `task_args["email_to"]`, and the archive
message id of its result (`task_mid_get`, production path:
`result.mid` when the result is a `VoteInitiate`, else `None`). -/
structure VoteTask where
  vote_duration : Int
  email_to : String
  mid : Option String
deriving DecidableEq, Repr

/-- The tasks enqueued by the vote writer, with the `task_args` payloads
of `tasks_vote.Initiate` and `message.Send`. -/
inductive TaskModel
  | voteInitiate (release_name email_to : String) (vote_duration : Int)
      (initiator_id initiator_fullname subject body : String)
  | messageSend (email_sender email_recipient subject body in_reply_to : String)
deriving DecidableEq, Repr

/-- External collaborators of `start`: the outcome of
`interaction.promote_release` (an error string or success) and
`util.permitted_recipients(asf_uid)`. -/
structure StartEnv where
  promoteError : Option String
  permittedDefault : List String

/-- `start` from `vote.py` (the release is passed explicitly, as in the
round-one resolution chain; the database load for `release=None` callers
and the phase change performed inside `promote_release` are outside this
model).  Returns the queued `VOTE_INITIATE` task. -/
def start (env : StartEnv) (email_to _project_name _version_name : String)
    (_selected_revision_number : String) (vote_duration_choice : Int)
    (subject_data body_data asf_uid asf_fullname : String) (release : Release)
    (promote : Bool) (permitted_recipients : Option (List String)) :
    Except String TaskModel :=
  let permitted := permitted_recipients.getD env.permittedDefault
  if !(permitted.contains email_to) then .error "Invalid mailing list choice"
  else
    let mkTask := TaskModel.voteInitiate release.name email_to vote_duration_choice asf_uid
      asf_fullname subject_data body_data
    if promote then
      match env.promoteError with
      | some e => .error e
      | none => .ok mkTask
    else .ok mkTask

/-- `release.project.display_name` as read by `send_resolution` (the
release is always loaded with its project there; the `none` default is
unreachable in the states the orchestrator produces). -/
def projDisplayName (release : Release) : String :=
  match release.project with
  | some p => p.display_name
  | none => ""

/-- `send_resolution` from `vote.py`: `none` mid yields the non-fatal
error string and no tasks; otherwise one `MESSAGE_SEND` task, plus a second
for the extra destination when present.  Returns
`(error_message, queued tasks)`. -/
def send_resolution (release : Release) (resolution : String) (body : String)
    (asf_uid asf_fullname : String) (latest_vote_task : VoteTask)
    (extra_destination : Option (String × String)) : Option String × List TaskModel :=
  match latest_vote_task.mid with
  | none => (some "No vote thread found, unable to send resolution message.", [])
  | some vote_thread_mid =>
    let email_recipient := latest_vote_task.email_to
    let email_sender := asf_uid ++ "@apache.org"
    let subject := "[VOTE] [RESULT] Release " ++ projDisplayName release ++ " " ++
      release.version ++ " " ++ pyUpper resolution
    let signature :=
      if asf_fullname == asf_uid then "-- \n" ++ asf_fullname
      else "-- \n" ++ asf_fullname ++ " (" ++ asf_uid ++ ")"
    let body := body ++ "\n\n" ++ signature
    let tasks := [TaskModel.messageSend email_sender email_recipient subject body vote_thread_mid]
    match extra_destination with
    | some (addr, mid2) =>
      (none, tasks ++ [TaskModel.messageSend email_sender addr subject body mid2])
    | none => (none, tasks)

/-- External collaborators of `resolve_release`: the cached archive URL of
the vote task's message id (`interaction.task_archive_url_cached`), the
`util.USER_TESTS_ADDRESS` constant, `construct.start_vote_default`, and
`util.email_mid_from_thread_id`. -/
structure ResolveEnv where
  startEnv : StartEnv
  archiveUrlCached : Option String
  userTestsAddress : String
  startVoteDefault : String → String
  emailMidFromThreadId : String → String × String

/-- The observable outcome of `resolve_release`: the committed release
row, the returned round and messages, every task queued in the
transaction, and whether a preview revision was created. -/
structure ResolveOutcome where
  release : Release
  voting_round : Option Nat
  success_message : String
  error_message : Option String
  tasks : List TaskModel
  preview_revision_created : Bool
deriving Repr

/-- `resolve_release` from `vote.py`.  The three branches update the
release (round-one podling pass: keep the phase, set `podling_thread_id`
from the archive URL's last path segment and start the incubator round;
other pass: phase `RELEASE_PREVIEW`, preview revision, round-two extra
destination; fail: phase `RELEASE_CANDIDATE_DRAFT`), then `send_resolution`
runs once.  A missing project at the `release.project.committee` access is
modelled as the committee-missing failure. -/
def resolve_release (env : ResolveEnv) (release : Release) (voting_round : Option Nat)
    (vote_result : String) (latest_vote_task : VoteTask)
    (asf_fullname resolution_body asf_uid : String) : Except String ResolveOutcome :=
  let finish := fun (release : Release) (extra : Option (String × String))
      (success : String) (startTasks : List TaskModel) (prevRev : Bool) =>
    let er := send_resolution release vote_result resolution_body asf_uid asf_fullname
      latest_vote_task extra
    Except.ok { release := release, voting_round := voting_round, success_message := success,
                error_message := er.1, tasks := startTasks ++ er.2,
                preview_revision_created := prevRev }
  if voting_round == some 1 && vote_result == "passed" then
    match env.archiveUrlCached with
    | none => .error "No archive URL found for podling vote"
    | some archive_url =>
      let thread_id := lastField archive_url '/'
      let release := { release with podling_thread_id := some thread_id }
      let incubator_vote_address := env.userTestsAddress
      match release.project with
      | none => .error "Project has no committee"
      | some p =>
        if p.committee.isNone then .error "Project has no committee"
        else
          match release.latest_revision_number with
          | none => .error "Release has no revision number"
          | some revision_number =>
            match start env.startEnv incubator_vote_address p.name release.version
                revision_number latest_vote_task.vote_duration
                ("[VOTE] Release " ++ p.display_name ++ " " ++ release.version)
                (env.startVoteDefault p.name) asf_uid asf_fullname release false
                (some [incubator_vote_address]) with
            | .error e => .error e
            | .ok t =>
              finish release none
                "Project PPMC vote marked as passed, and Incubator PMC vote automatically started"
                [t] false
  else if vote_result == "passed" then
    let release := { release with phase := ReleasePhase.RELEASE_PREVIEW }
    let extra_destination :=
      if voting_round == some 2 then
        match release.podling_thread_id with
        | some tid => some (env.emailMidFromThreadId tid)
        | none => none
      else none
    finish release extra_destination "Vote marked as passed" [] true
  else
    let release := { release with phase := ReleasePhase.RELEASE_CANDIDATE_DRAFT }
    finish release none "Vote marked as failed" [] false

/-- The `is_podling` computation of `resolve` (lines 113–115 of
`vote.py`). -/
def isPodling (release : Release) : Bool :=
  match release.project with
  | some p =>
    match p.committee with
    | some c => c.is_podling
    | none => false
  | none => false

/-- The `voting_round` computation of `resolve` (lines 122–124 of
`vote.py`): `none` for non-podlings, round 1 when no `podling_thread_id`
has been archived yet, round 2 otherwise. -/
def votingRound (release : Release) : Option Nat :=
  if isPodling release then (if release.podling_thread_id.isNone then some 1 else some 2)
  else none

/-- `resolve` from `vote.py`: demand the release row named
`project_name + "-" + version_name` in phase `RELEASE_CANDIDATE`, derive
the voting round, demand a resolved vote task and a committee, then
dispatch to `resolve_release`. -/
def resolve (env : ResolveEnv) (project_name version_name : String) (vote_result : String)
    (asf_fullname resolution_body asf_uid : String) (release : Release)
    (latest_vote_task : Option VoteTask) : Except String ResolveOutcome :=
  if release.name != project_name ++ "-" ++ version_name then .error "Release not found"
  else if release.phase != ReleasePhase.RELEASE_CANDIDATE then .error "Release not found"
  else
    match latest_vote_task with
    | none => .error "No vote task found, unable to send resolution message."
    | some task =>
      if release.committee.isNone then .error "Project has no committee"
      else
        resolve_release env release (votingRound release) vote_result task asf_fullname
          resolution_body asf_uid

/-! ## Concrete instances used by counterexamples and witnesses -/

/-- A release whose policy sets `min_hours = 0`: Python's
`min_hours or None` turns this into "no minimum". -/
def relPolicyZero : Release :=
  { name := "p-1.0", version := "1.0", phase := ReleasePhase.RELEASE_CANDIDATE,
    podling_thread_id := none, latest_revision_number := none,
    project := some { name := "p", display_name := "P", committee := none,
                      release_policy := some { min_hours := some 0 } },
    committee := none }

/-- A release with no project, so the default minimum of 72 hours
applies. -/
def relNoProject : Release :=
  { name := "q-1.0", version := "1.0", phase := ReleasePhase.RELEASE_CANDIDATE,
    podling_thread_id := none, latest_revision_number := none,
    project := none, committee := none }

/-- A release with version `"2"`, for the sort witness. -/
def relVer2 : Release := { relNoProject with name := "q-2", version := "2" }

/-- A release with version `"10"`, for the sort witness. -/
def relVer10 : Release := { relNoProject with name := "q-10", version := "10" }

/-- A podling committee with three members. -/
def podCommittee : Committee :=
  { name := "pod", display_name := "Pod", is_podling := true,
    committee_members := ["m1", "m2", "m3"], committers := [] }

/-- The podling project of `podCommittee`. -/
def podProject : Project :=
  { name := "pod", display_name := "Pod", committee := some podCommittee,
    release_policy := none }

/-- A podling release in phase `RELEASE_CANDIDATE`, before any round-one
archive (`podling_thread_id = none`). -/
def podRelease : Release :=
  { name := "pod-1.0", version := "1.0", phase := ReleasePhase.RELEASE_CANDIDATE,
    podling_thread_id := none, latest_revision_number := some "00002",
    project := some podProject, committee := some podCommittee }

/-- A resolved `VOTE_INITIATE` task for `podRelease`. -/
def voteTask1 : VoteTask :=
  { vote_duration := 72, email_to := "dev@pod.apache.org", mid := some "mid-1" }

/-- The external environment of the resolution chain, parametrized by the
`util.USER_TESTS_ADDRESS` constant (whose value lives outside the
embedded sources). -/
def resolveEnvOf (uta : String) : ResolveEnv :=
  { startEnv := { promoteError := none, permittedDefault := [] },
    archiveUrlCached := some "https://lists.apache.org/thread/t1abc",
    userTestsAddress := uta,
    startVoteDefault := fun _pn => "DEFAULT-BODY",
    emailMidFromThreadId := fun tid => ("addr-" ++ tid, "mid-" ++ tid) }

/-- The resolution environment with a fixed user-tests address. -/
def resolveEnv1 : ResolveEnv := resolveEnvOf "user-tests@example.org"

/-- A tabulation environment whose `From:` parser is the identity and
whose LDAP snapshot is empty, with no committee. -/
def tabEnv0 : TabEnv :=
  { emailFromUid := fun s => s, email_to_uid := [], committee := none }

/-- A `+1` vote from `a@apache.org`. -/
def msgA : Msg :=
  { from_raw := "a@apache.org", list_raw := "", subject := "[VOTE] x", body := "+1",
    epoch := some 1, mid := "mA", date := "dA" }

/-- A later `-1` vote from the same `a@apache.org`. -/
def msgB : Msg :=
  { from_raw := "a@apache.org", list_raw := "", subject := "Re: [VOTE] x",
    body := "-1 changed my mind", epoch := some 2, mid := "mB", date := "dB" }

/-- A `[RESULT]` message whose sender yields no address, so its identity
is invalid and the loop skips it without stopping. -/
def msgResultInvalid : Msg :=
  { from_raw := "", list_raw := "", subject := "[RESULT] x", body := "+1",
    epoch := some 1, mid := "m1", date := "d1" }

/-- An identity-valid `[RESULT]` message with epoch 5 and empty body. -/
def msgResultValid : Msg :=
  { from_raw := "b@apache.org", list_raw := "", subject := "[RESULT] x", body := "",
    epoch := some 5, mid := "m2", date := "d2" }

/-- A vote sent after the result mail. -/
def msgPost : Msg :=
  { from_raw := "c@apache.org", list_raw := "", subject := "Re: [VOTE] x", body := "+1",
    epoch := some 9, mid := "m3", date := "d3" }

/-! ## Helper lemmas -/

/-- A list without the separator splits to itself. -/
theorem splitCharList_of_not_contains (sep : Char) (l : List Char)
    (h : l.contains sep = false) : splitCharList sep l = [l] := by
  induction l with
  | nil => rfl
  | cons c cs ih =>
    simp only [List.contains_cons, Bool.or_eq_false_iff] at h
    have hc : (c == sep) = false :=
      beq_eq_false_iff_ne.mpr (fun hh => (beq_eq_false_iff_ne.mp h.1) hh.symm)
    simp [splitCharList, hc, ih h.2]

/-- A string without the separator splits to itself. -/
theorem splitChar_of_not_contains (s : String) (sep : Char)
    (h : s.data.contains sep = false) : splitChar s sep = [s] := by
  simp [splitChar, splitCharList_of_not_contains sep s.data h]

/-- The outcome boolean of `_vote_outcome_format` is exactly the
threshold test. -/
theorem vote_outcome_format_fst (r : Option ℚ) (bp bm : Nat) :
    (vote_outcome_format r bp bm).1 = (decide (3 ≤ bp) && decide (bm < bp)) := by
  unfold vote_outcome_format
  cases hpa : (decide (3 ≤ bp) && decide (bm < bp)) <;>
    cases r <;> simp [hpa] <;> split_ifs <;> rfl

/-- Binding yes-count is unchanged by restricting to binding entries. -/
theorem bindingPlusOne_filter (tab : List (String × VoteEmail)) :
    bindingPlusOne (tab.filter (fun p => p.2.status == VoteStatus.BINDING)) =
      bindingPlusOne tab := by
  simp only [bindingPlusOne, List.filter_filter]
  congr 1
  apply List.filter_congr
  intro a _
  cases hs : a.2.status == VoteStatus.BINDING <;> simp [hs]

/-- Binding no-count is unchanged by restricting to binding entries. -/
theorem bindingMinusOne_filter (tab : List (String × VoteEmail)) :
    bindingMinusOne (tab.filter (fun p => p.2.status == VoteStatus.BINDING)) =
      bindingMinusOne tab := by
  simp only [bindingMinusOne, List.filter_filter]
  congr 1
  apply List.filter_congr
  intro a _
  cases hs : a.2.status == VoteStatus.BINDING <;> simp [hs]

/-! ## Claim theorems -/

/-- C1: for every release, start time and tabulated vote map,
`vote_outcome` returns `passed = true` iff the number of BINDING entries
voting YES is at least 3 and strictly exceeds the BINDING entries voting
NO; non-BINDING entries never affect the outcome (restricting the map to
its BINDING entries leaves `passed` unchanged). -/
theorem vote_outcome_passed_iff (release : Release) (now : Int) (start_unixtime : Option Int)
    (tab : List (String × VoteEmail)) :
    ((vote_outcome release now start_unixtime tab).1 = true ↔
      3 ≤ bindingPlusOne tab ∧ bindingMinusOne tab < bindingPlusOne tab) ∧
    (vote_outcome release now start_unixtime
        (tab.filter (fun p => p.2.status == VoteStatus.BINDING))).1 =
      (vote_outcome release now start_unixtime tab).1 := by
  constructor
  · simp only [vote_outcome, vote_outcome_format_fst, Bool.and_eq_true, decide_eq_true_eq]
  · simp only [vote_outcome, vote_outcome_format_fst, bindingPlusOne_filter,
      bindingMinusOne_filter]

/-- No `Vote` member renders as the string `"Abstain"` (`ABSTAIN.value`
is `"-"`). -/
theorem vote_value_ne_abstain (v : Vote) : (v.value == "Abstain") = false := by
  cases v <;> decide

/-- The running counters of the `vote_summary` fold: the three abstain
counters never move, and the per-status totals count every entry of the
status, abstentions included. -/
theorem vote_summary_go (tab : List (String × VoteEmail)) (s : Summary) :
    (tab.foldl (fun s p => summaryStep s p.2) s).binding_votes_abstain =
        s.binding_votes_abstain ∧
    (tab.foldl (fun s p => summaryStep s p.2) s).non_binding_votes_abstain =
        s.non_binding_votes_abstain ∧
    (tab.foldl (fun s p => summaryStep s p.2) s).unknown_votes_abstain =
        s.unknown_votes_abstain ∧
    (tab.foldl (fun s p => summaryStep s p.2) s).binding_votes =
        s.binding_votes +
          (tab.filter (fun p => p.2.status == VoteStatus.BINDING)).length ∧
    (tab.foldl (fun s p => summaryStep s p.2) s).non_binding_votes =
        s.non_binding_votes +
          (tab.filter (fun p =>
            (p.2.status == VoteStatus.COMMITTER) ||
              (p.2.status == VoteStatus.CONTRIBUTOR))).length ∧
    (tab.foldl (fun s p => summaryStep s p.2) s).unknown_votes =
        s.unknown_votes +
          (tab.filter (fun p => p.2.status == VoteStatus.UNKNOWN)).length := by
  induction tab generalizing s with
  | nil => simp
  | cons h t ih =>
    obtain ⟨i1, i2, i3, i4, i5, i6⟩ := ih (summaryStep s h.2)
    simp only [List.foldl_cons, List.filter_cons]
    rw [i1, i2, i3, i4, i5, i6]
    cases hs : h.2.status <;>
      simp [summaryStep, hs, vote_value_ne_abstain] <;> omega

/-- Looking up the key just written returns the written value. -/
theorem dictGet_put_self {α : Type} (tab : List (String × α)) (k : String) (v : α) :
    dictGet (dictPut tab k v) k = some v := by
  induction tab with
  | nil => simp [dictPut, dictGet]
  | cons h t ih =>
    cases hk : h.1 == k with
    | true => simp [dictPut, dictGet, hk]
    | false => simp [dictPut, dictGet, hk, ih]

/-- Writing one key leaves lookups of another key unchanged. -/
theorem dictGet_put_other {α : Type} (tab : List (String × α)) (k2 k : String) (v : α)
    (hne : (k2 == k) = false) : dictGet (dictPut tab k2 v) k = dictGet tab k := by
  induction tab with
  | nil => simp [dictPut, dictGet, hne]
  | cons h t ih =>
    cases hk : h.1 == k2 with
    | true =>
      have : h.1 = k2 := eq_of_beq hk
      simp [dictPut, dictGet, hk, hne, this]
    | false => simp [dictPut, dictGet, hk, ih]

/-- The key just written is present. -/
theorem dictHasKey_put_self {α : Type} (tab : List (String × α)) (k : String) (v : α) :
    dictHasKey (dictPut tab k v) k = true := by
  induction tab with
  | nil => simp [dictPut, dictHasKey]
  | cons h t ih =>
    cases hk : h.1 == k with
    | true => simp [dictPut, dictHasKey, hk]
    | false => simp [dictPut, dictHasKey, hk, ih]

/-- Writing one key leaves the presence of another key unchanged. -/
theorem dictHasKey_put_other {α : Type} (tab : List (String × α)) (k2 k : String) (v : α)
    (hne : (k2 == k) = false) : dictHasKey (dictPut tab k2 v) k = dictHasKey tab k := by
  induction tab with
  | nil => simp [dictPut, dictHasKey, hne]
  | cons h t ih =>
    cases hk : h.1 == k2 with
    | true =>
      have : h.1 = k2 := eq_of_beq hk
      simp [dictPut, dictHasKey, hk, hne, this]
    | false => simp [dictPut, dictHasKey, hk, ih]

/-- `applyGet` only depends on the `k`-projections of the starting
table. -/
theorem applyGet_congr (env : TabEnv) (k : String) :
    ∀ (ms : List Msg) (tab₁ tab₂ : List (String × VoteEmail)),
      dictGet tab₁ k = dictGet tab₂ k → dictHasKey tab₁ k = dictHasKey tab₂ k →
      applyGet env k tab₁ ms = applyGet env k tab₂ ms := by
  intro ms
  induction ms with
  | nil =>
    intro t1 t2 h1 _
    simpa [applyGet] using h1
  | cons m ms ih =>
    intro t1 t2 h1 h2
    simp only [applyGet, h2]
    exact ih _ _ (by rw [dictGet_put_self, dictGet_put_self])
      (by rw [dictHasKey_put_self, dictHasKey_put_self])

/-- `applyGet` over a non-empty run of contributions for `k` yields the
last contribution, `updated` iff the key pre-existed or there were at
least two contributions. -/
theorem applyGet_getLast (env : TabEnv) (k : String) :
    ∀ (cs : List Msg) (tab : List (String × VoteEmail)) (m : Msg),
      cs.getLast? = some m →
      applyGet env k tab cs =
        some (mkVoteEmail env m (dictHasKey tab k || decide (2 ≤ cs.length))) := by
  intro cs
  induction cs with
  | nil =>
    intro tab m h
    simp at h
  | cons c cs ih =>
    intro tab m h
    cases cs with
    | nil =>
      simp only [List.getLast?_singleton, Option.some.injEq] at h
      subst h
      simp [applyGet, dictGet_put_self]
    | cons c2 cs2 =>
      rw [List.getLast?_cons_cons] at h
      rw [show applyGet env k tab (c :: c2 :: cs2) =
          applyGet env k (dictPut tab k (mkVoteEmail env c (dictHasKey tab k)))
            (c2 :: cs2) from rfl,
        ih _ _ h]
      have h2 : 2 ≤ (c :: c2 :: cs2).length := by simp
      simp [dictHasKey_put_self, h2]

/-- Per-key account of the tabulation loop: for any run without a cutoff
message, the final lookup of `k` is the insert-fold of the messages that
contribute under key `k`. -/
theorem votesGo_lookup (env : TabEnv) (k : String) :
    ∀ (msgs : List Msg), (∀ m ∈ msgs, cutsMsg env m = false) →
      ∀ (st : Option Int) (tab : List (String × VoteEmail)),
      dictGet (votesGo env msgs st tab).2 k =
        applyGet env k tab
          (msgs.filter (fun m => contribMsg env m && (voterKey env m == k))) := by
  intro msgs
  induction msgs with
  | nil =>
    intro _ st tab
    simp [votesGo, applyGet]
  | cons m rest ih =>
    intro hnc st tab
    have hm : cutsMsg env m = false := hnc m (by simp)
    have hrest : ∀ x ∈ rest, cutsMsg env x = false := fun x hx => hnc x (by simp [hx])
    cases hid : identityOk env m with
    | false =>
      have hcm : contribMsg env m = false := by simp [contribMsg, hid]
      simp only [votesGo, hid, Bool.false_eq_true, if_false, List.filter_cons, hcm,
        Bool.false_and, ite_false]
      exact ih hrest st tab
    | true =>
      have hres : strHas m.subject "[RESULT]" = false := by
        unfold cutsMsg at hm
        rw [hid] at hm
        simpa using hm
      cases hbody : m.body == "" with
      | true =>
        have hcm : contribMsg env m = false := by simp [contribMsg, hbody]
        simp only [votesGo, hid, if_true, hres, Bool.false_eq_true, if_false, hbody,
          List.filter_cons, hcm, Bool.false_and, ite_false]
        exact ih hrest _ tab
      | false =>
        cases hcast : (vote_castings m.body).isEmpty with
        | true =>
          have hcm : contribMsg env m = false := by simp [contribMsg, hcast]
          simp only [votesGo, hid, if_true, hres, Bool.false_eq_true, if_false, hbody,
            hcast, List.filter_cons, hcm, Bool.false_and, ite_false]
          exact ih hrest _ tab
        | false =>
          have hcm : contribMsg env m = true := by
            simp [contribMsg, hid, hres, hbody, hcast]
          cases hk : voterKey env m == k with
          | true =>
            have hkeq : voterKey env m = k := eq_of_beq hk
            simp only [votesGo, hid, if_true, hres, Bool.false_eq_true, if_false, hbody,
              hcast, List.filter_cons, hcm, hk, Bool.true_and, Bool.and_self, ite_true]
            rw [ih hrest _ _, hkeq]
            simp [applyGet]
          | false =>
            simp only [votesGo, hid, if_true, hres, Bool.false_eq_true, if_false, hbody,
              hcast, List.filter_cons, hcm, hk, Bool.true_and, Bool.and_false, ite_false]
            rw [ih hrest _ _]
            exact applyGet_congr env k _ _ _
              (dictGet_put_other _ _ _ _ hk) (dictHasKey_put_other _ _ _ _ hk)

/-- C3: the tabulated map is keyed by `asf_uid_or_email`, and for a voter
key whose casting-bearing messages (before any cutoff) end with `m`, the
final entry is the `VoteEmail` built from `m`, with `updated = true` iff
the voter sent at least two such messages (`false` for exactly one). -/
theorem votes_last_write_wins (env : TabEnv) (msgs : List Msg) (k : String) (m : Msg)
    (hnc : ∀ x ∈ msgs, cutsMsg env x = false)
    (hlast : (msgs.filter (fun x => contribMsg env x && (voterKey env x == k))).getLast? =
      some m) :
    dictGet (votes env msgs).2 k =
      some (mkVoteEmail env m (decide (2 ≤
        (msgs.filter (fun x => contribMsg env x && (voterKey env x == k))).length))) ∧
    voterKey env m = k ∧
    ∀ u, (mkVoteEmail env m u).asf_uid_or_email = voterKey env m := by
  have hmem := List.mem_of_getLast?_eq_some hlast
  have hpred := (List.mem_filter.mp hmem).2
  have hkeq : voterKey env m = k :=
    eq_of_beq ((Bool.and_eq_true _ _).mp hpred).2
  refine ⟨?_, hkeq, fun u => rfl⟩
  rw [votes, votesGo_lookup env k msgs hnc none [], applyGet_getLast env k _ [] m hlast]
  simp [dictHasKey]

/-- Witness for C3: `a@apache.org` votes `+1` then `-1`; the final entry
is the `-1` mail with `updated = true`. -/
theorem votes_last_write_wins_witness :
    dictGet (votes tabEnv0 [msgA, msgB]).2 "a" = some (mkVoteEmail tabEnv0 msgB true) := by
  have h := (votes_last_write_wins tabEnv0 [msgA, msgB] "a" msgB (by decide) (by decide)).1
  rw [h]
  rfl

/-- The tabulation loop stops at the first identity-valid `[RESULT]`
message: everything after it is ignored, the map is that of the prefix,
and `start_unixtime` falls back to the cutoff message's epoch when the
prefix recorded none. -/
theorem votesGo_result_cutoff (env : TabEnv) (post : List Msg) (r : Msg)
    (hr : cutsMsg env r = true) :
    ∀ (pre : List Msg), (∀ m ∈ pre, cutsMsg env m = false) →
      ∀ (st : Option Int) (tab : List (String × VoteEmail)),
      votesGo env (pre ++ r :: post) st tab =
        ((match (votesGo env pre st tab).1 with
          | some e => some e
          | none => r.epoch), (votesGo env pre st tab).2) := by
  intro pre
  induction pre with
  | nil =>
    intro _ st tab
    have hid : identityOk env r = true := by
      unfold cutsMsg at hr
      exact ((Bool.and_eq_true _ _).mp hr).1
    have hres : strHas r.subject "[RESULT]" = true := by
      unfold cutsMsg at hr
      exact ((Bool.and_eq_true _ _).mp hr).2
    cases st <;> simp [votesGo, hid, hres]
  | cons m pre ih =>
    intro hpre st tab
    have hm : cutsMsg env m = false := hpre m (by simp)
    have hpre' : ∀ x ∈ pre, cutsMsg env x = false := fun x hx => hpre x (by simp [hx])
    cases hid : identityOk env m with
    | false =>
      simp only [List.cons_append, votesGo, hid, Bool.false_eq_true, if_false]
      exact ih hpre' st tab
    | true =>
      have hres : strHas m.subject "[RESULT]" = false := by
        unfold cutsMsg at hm
        rw [hid] at hm
        simpa using hm
      cases hbody : m.body == "" with
      | true =>
        simp only [List.cons_append, votesGo, hid, if_true, hres, Bool.false_eq_true,
          if_false, hbody, ite_true]
        exact ih hpre' _ _
      | false =>
        cases hcast : (vote_castings m.body).isEmpty with
        | true =>
          simp only [List.cons_append, votesGo, hid, if_true, hres, Bool.false_eq_true,
            if_false, hbody, hcast, ite_true]
          exact ih hpre' _ _
        | false =>
          simp only [List.cons_append, votesGo, hid, if_true, hres, Bool.false_eq_true,
            if_false, hbody, hcast, ite_false]
          exact ih hpre' _ _

/-- C4 counterexample: the thread's first message has `"[RESULT]"` in its
subject (with an unparseable sender) and the second is an identity-valid
`"[RESULT]"` mail with epoch 5.  The claim ("the tabulator stops at the
first message whose subject contains `[RESULT]` without processing it or
anything later") predicts the output of the empty prefix, `(none, [])`;
the code returns `(some 5, [])`: the invalid-identity result mail does
not stop the loop, and the cutoff message's own epoch is recorded as
`start_unixtime`. -/
theorem votes_result_cutoff_cex :
    votes tabEnv0 [msgResultInvalid, msgResultValid] = (some 5, []) ∧
    votes tabEnv0 ([] : List Msg) = (none, []) ∧
    (some (5 : Int) ≠ (none : Option Int)) :=
  ⟨rfl, rfl, by decide⟩

/-- C4 (amended): the tabulator stops at the first identity-valid message
whose subject contains `"[RESULT]"`; no message at or after it
contributes to the vote map (identity-invalid `[RESULT]` subjects do not
trigger the cutoff), and `start_unixtime` is the prefix's recorded epoch,
falling back to the cutoff message's own epoch when the prefix recorded
none. -/
theorem votes_result_cutoff (env : TabEnv) (pre post : List Msg) (r : Msg)
    (hpre : ∀ m ∈ pre, cutsMsg env m = false) (hr : cutsMsg env r = true) :
    (votes env (pre ++ r :: post)).2 = (votes env pre).2 ∧
    (votes env (pre ++ r :: post)).1 =
      (match (votes env pre).1 with
        | some e => some e
        | none => r.epoch) := by
  have h := votesGo_result_cutoff env post r hr pre hpre none []
  unfold votes
  rw [h]
  exact ⟨rfl, rfl⟩

/-- Witness for the amended C4: a `+1`, then the result mail, then a late
`+1`; the map ignores everything from the result mail on, and the start
time comes from the first message. -/
theorem votes_result_cutoff_witness :
    (votes tabEnv0 [msgA, msgResultValid, msgPost]).2 = (votes tabEnv0 [msgA]).2 ∧
    (votes tabEnv0 [msgA, msgResultValid, msgPost]).1 =
      (match (votes tabEnv0 [msgA]).1 with
        | some e => some e
        | none => msgResultValid.epoch) :=
  votes_result_cutoff tabEnv0 [msgA] [msgPost] msgResultValid (by decide) (by decide)

/-- C10: for every tabulated vote map, `vote_summary` returns `0` for the
three abstain counters, even when the map contains ABSTAIN entries: the
counters compare the vote's rendered value against `"Abstain"` while
`Vote.ABSTAIN.value` is `"-"`; abstentions are still counted in the
per-status totals (which count every entry of the status). -/
theorem vote_summary_abstain_always_zero (tab : List (String × VoteEmail)) :
    (vote_summary tab).binding_votes_abstain = 0 ∧
    (vote_summary tab).non_binding_votes_abstain = 0 ∧
    (vote_summary tab).unknown_votes_abstain = 0 ∧
    (vote_summary tab).binding_votes =
      (tab.filter (fun p => p.2.status == VoteStatus.BINDING)).length ∧
    (vote_summary tab).non_binding_votes =
      (tab.filter (fun p =>
        (p.2.status == VoteStatus.COMMITTER) ||
          (p.2.status == VoteStatus.CONTRIBUTOR))).length ∧
    (vote_summary tab).unknown_votes =
      (tab.filter (fun p => p.2.status == VoteStatus.UNKNOWN)).length := by
  have h := vote_summary_go tab Summary.zero
  simpa [vote_summary, Summary.zero] using h

/-- C6: for a body line that is neither skipped nor scan-terminating, a
line satisfying two or more of the `plus_one`, `minus_one` and `zero`
tests produces no casting, and a line satisfying exactly one produces the
corresponding casting `(YES | NO | ABSTAIN, line)`. -/
theorem line_castings_classification (line : String)
    (hnl : line.data.contains '\n' = false)
    (hc : vote_continue line = false) (hb : vote_break line = false) :
    (((plus_one_test line && minus_one_test line) ||
      (plus_one_test line && zero_test line) ||
      (minus_one_test line && zero_test line)) = true → vote_castings line = []) ∧
    (plus_one_test line = true → minus_one_test line = false → zero_test line = false →
      vote_castings line = [(Vote.YES, line)]) ∧
    (minus_one_test line = true → plus_one_test line = false → zero_test line = false →
      vote_castings line = [(Vote.NO, line)]) ∧
    (zero_test line = true → plus_one_test line = false → minus_one_test line = false →
      vote_castings line = [(Vote.ABSTAIN, line)]) := by
  have hv : vote_castings line = line_castings line := by
    unfold vote_castings
    rw [splitChar_of_not_contains line '\n' hnl]
    simp [vote_castings_lines, hc, hb]
  refine ⟨?_, ?_, ?_, ?_⟩
  · intro h1
    rw [hv]
    simp [line_castings, h1]
  · intro h1 h2 h3
    rw [hv]
    simp [line_castings, h1, h2, h3]
  · intro h1 h2 h3
    rw [hv]
    simp [line_castings, h1, h2, h3]
  · intro h1 h2 h3
    rw [hv]
    simp [line_castings, h1, h2, h3]

/-- Witness for C6: the single line `"+1 (binding)"` satisfies exactly the
`plus_one` test and yields the YES casting. -/
theorem line_castings_classification_witness :
    vote_castings "+1 (binding)" = [(Vote.YES, "+1 (binding)")] :=
  (line_castings_classification "+1 (binding)" (by decide) (by decide)
    (by decide)).2.1 (by decide) (by decide) (by decide)

/-- The message of `_vote_outcome_format` when the remaining duration is
known and positive. -/
theorem vote_outcome_format_snd_pos (r : Option ℚ) (bp bm : Nat) (x : ℚ)
    (hr : r = some x) (hx : 0 < x) :
    (vote_outcome_format r bp bm).2 =
      if (vote_outcome_format r bp bm).1 then OutcomeMsg.stillOpenWouldPass (pyRound2 x)
      else OutcomeMsg.stillOpenWouldFail (pyRound2 x) := by
  subst hr
  rw [vote_outcome_format_fst]
  unfold vote_outcome_format
  cases hpa : (decide (3 ≤ bp) && decide (bm < bp)) <;> simp [hpa, hx]

/-- The message of `_vote_outcome_format` when the remaining duration is
known and non-positive. -/
theorem vote_outcome_format_snd_nonpos (r : Option ℚ) (bp bm : Nat) (x : ℚ)
    (hr : r = some x) (hx : ¬0 < x) :
    (vote_outcome_format r bp bm).2 =
      if (vote_outcome_format r bp bm).1 then OutcomeMsg.passed else OutcomeMsg.failed := by
  subst hr
  rw [vote_outcome_format_fst]
  unfold vote_outcome_format
  cases hpa : (decide (3 ≤ bp) && decide (bm < bp)) <;> simp [hpa, hx]

/-- The message of `_vote_outcome_format` when no minimum is known. -/
theorem vote_outcome_format_snd_none (r : Option ℚ) (bp bm : Nat) (hr : r = none) :
    (vote_outcome_format r bp bm).2 =
      if (vote_outcome_format r bp bm).1 then OutcomeMsg.passed
      else OutcomeMsg.wouldFailIfClosedNow := by
  subst hr
  rw [vote_outcome_format_fst]
  unfold vote_outcome_format
  cases hpa : (decide (3 ≤ bp) && decide (bm < bp)) <;> simp [hpa]

/-- C5 counterexample: a release whose policy sets `min_hours = 0` has no
known minimum, and with no binding yes votes the message is "The vote
would fail if closed now." — not "The vote failed." (nor "The vote
passed.") as the claim's two-template "otherwise" case requires. -/
theorem vote_outcome_message_cex :
    vote_outcome relPolicyZero 1000 (some 0) [] =
      (false, OutcomeMsg.wouldFailIfClosedNow) ∧
    OutcomeMsg.wouldFailIfClosedNow ≠ OutcomeMsg.failed ∧
    OutcomeMsg.wouldFailIfClosedNow ≠ OutcomeMsg.passed :=
  ⟨rfl, by decide, by decide⟩

/-- C5 (amended): `vote_outcome` derives the minimum duration from the
release's policy `min_hours`, defaulting to 72 when the project or its
policy is absent and treating a policy value of 0 (or an absent
`min_hours` on a present policy) as no minimum; the message is the
"still open for X hours, but it would {pass|fail} if closed now" template
with X the remaining hours rounded to 2 decimals when the remaining
duration is known and positive, "The vote passed."/"The vote failed."
when the remaining duration is known and non-positive, and "The vote
passed."/"The vote would fail if closed now." when no minimum is known. -/
theorem vote_outcome_message (release : Release) (now : Int) (st : Option Int)
    (tab : List (String × VoteEmail)) :
    (release.project = none → minDurationHours release = some 72) ∧
    (∀ p, release.project = some p → p.release_policy = none →
      minDurationHours release = some 72) ∧
    (∀ p pol, release.project = some p → p.release_policy = some pol →
      pol.min_hours = none ∨ pol.min_hours = some 0 → minDurationHours release = none) ∧
    (∀ p pol n, release.project = some p → p.release_policy = some pol →
      pol.min_hours = some n → 0 < n → minDurationHours release = some (n : ℚ)) ∧
    (∀ x, (minDurationHours release).map (fun m => m - durationHours now st) = some x →
      0 < x → (vote_outcome release now st tab).2 =
        (if (vote_outcome release now st tab).1 then
          OutcomeMsg.stillOpenWouldPass (pyRound2 x)
         else OutcomeMsg.stillOpenWouldFail (pyRound2 x))) ∧
    (∀ x, (minDurationHours release).map (fun m => m - durationHours now st) = some x →
      ¬0 < x → (vote_outcome release now st tab).2 =
        (if (vote_outcome release now st tab).1 then OutcomeMsg.passed
         else OutcomeMsg.failed)) ∧
    ((minDurationHours release).map (fun m => m - durationHours now st) = none →
      (vote_outcome release now st tab).2 =
        (if (vote_outcome release now st tab).1 then OutcomeMsg.passed
         else OutcomeMsg.wouldFailIfClosedNow)) := by
  refine ⟨?_, ?_, ?_, ?_, ?_, ?_, ?_⟩
  · intro hp
    simp [minDurationHours, hp]
  · intro p hp hpol
    simp [minDurationHours, hp, hpol]
  · intro p pol hp hpol hmin
    rcases hmin with h | h <;> simp [minDurationHours, hp, hpol, h]
  · intro p pol n hp hpol hmin hpos
    cases n with
    | zero => omega
    | succ k => simp [minDurationHours, hp, hpol, hmin]
  · intro x hx hpos
    simp only [vote_outcome]
    exact vote_outcome_format_snd_pos _ _ _ x hx hpos
  · intro x hx hpos
    simp only [vote_outcome]
    exact vote_outcome_format_snd_nonpos _ _ _ x hx hpos
  · intro hx
    simp only [vote_outcome]
    exact vote_outcome_format_snd_none _ _ _ hx

/-- Witness for the amended C5: a release with no project defaults to a
72-hour minimum; with no votes and no elapsed time the message is the
"still open, would fail" template showing 72 remaining hours. -/
theorem vote_outcome_message_witness :
    (vote_outcome relNoProject 0 none []).2 = OutcomeMsg.stillOpenWouldFail (pyRound2 72) := by
  have h := (vote_outcome_message relNoProject 0 none []).2.2.2.2.1 72
    (by norm_num [minDurationHours, durationHours, relNoProject]) (by norm_num)
  rw [h]
  have hf : (vote_outcome relNoProject 0 none []).1 = false := by
    simp only [vote_outcome, vote_outcome_format_fst]
    decide
  rw [hf]
  simp

/-- `_trusted_project_checks` succeeds exactly with the repository name
after `"apache/"` and the workflow path between the repository prefix and
the final `"@"` when all four checks hold. -/
theorem trusted_project_checks_ok (repository workflow_ref : String)
    (h1 : strStarts repository "apache/" = true)
    (h2 : strStarts workflow_ref (repository ++ "/") = true)
    (h3 : strHas (stripLeading workflow_ref (repository ++ "/")) "@" = true)
    (h4 : strStarts (beforeLastField (stripLeading workflow_ref (repository ++ "/")) '@')
      ".github/workflows/" = true) :
    trusted_project_checks repository workflow_ref =
      .ok (stripLeading repository "apache/",
        beforeLastField (stripLeading workflow_ref (repository ++ "/")) '@') := by
  unfold trusted_project_checks
  simp [h1, h2, h3, h4]

/-- C8: `trusted_jwt` yields an `InteractionError` when the publisher is
not `"github"` or when any of the repository/workflow_ref shape checks
fails (given a directory-mapped actor); when the checks pass but no
release policy for the repository lists the workflow path in its
allowlist for the requested phase, it fails with
`ReleasePolicyNotFound`. -/
theorem trusted_jwt_errors (ldapMap : String → Option String)
    (policies : List GithubPolicy) (allow : List String) (publisher : String)
    (payload : JwtPayload) (phase : TrustedProjectPhase) (uid : String) :
    (publisher ≠ "github" →
      errIsInteraction (trusted_jwt ldapMap policies allow publisher payload phase) = true) ∧
    (ldapMap payload.actor_id = some uid →
      ¬(strStarts payload.repository "apache/" = true ∧
        strStarts payload.workflow_ref (payload.repository ++ "/") = true ∧
        strHas (stripLeading payload.workflow_ref (payload.repository ++ "/")) "@" = true ∧
        strStarts (beforeLastField (stripLeading payload.workflow_ref
          (payload.repository ++ "/")) '@') ".github/workflows/" = true) →
      errIsInteraction (trusted_jwt ldapMap policies allow publisher payload phase) = true) ∧
    (publisher = "github" → ldapMap payload.actor_id = some uid →
      (strStarts payload.repository "apache/" = true ∧
        strStarts payload.workflow_ref (payload.repository ++ "/") = true ∧
        strHas (stripLeading payload.workflow_ref (payload.repository ++ "/")) "@" = true ∧
        strStarts (beforeLastField (stripLeading payload.workflow_ref
          (payload.repository ++ "/")) '@') ".github/workflows/" = true) →
      findPolicy policies (stripLeading payload.repository "apache/")
        (beforeLastField (stripLeading payload.workflow_ref (payload.repository ++ "/")) '@')
        phase = none →
      errIsPolicyNotFound (trusted_jwt ldapMap policies allow publisher payload phase) =
        true) := by
  refine ⟨?_, ?_, ?_⟩
  · intro hpub
    have hb : (publisher != "github") = true := by simpa using hpub
    simp [trusted_jwt, hb, errIsInteraction]
  · intro hld hconds
    by_cases hpub : publisher = "github"
    · subst hpub
      unfold trusted_jwt
      simp only [bne_self_eq_false, Bool.false_eq_true, if_false, hld]
      cases h1 : strStarts payload.repository "apache/" with
      | false => simp [trusted_project, trusted_project_checks, h1, errIsInteraction]
      | true =>
        cases h2 : strStarts payload.workflow_ref (payload.repository ++ "/") with
        | false => simp [trusted_project, trusted_project_checks, h1, h2, errIsInteraction]
        | true =>
          cases h3 : strHas (stripLeading payload.workflow_ref (payload.repository ++ "/"))
              "@" with
          | false =>
            simp [trusted_project, trusted_project_checks, h1, h2, h3, errIsInteraction]
          | true =>
            cases h4 : strStarts (beforeLastField (stripLeading payload.workflow_ref
                (payload.repository ++ "/")) '@') ".github/workflows/" with
            | false =>
              simp [trusted_project, trusted_project_checks, h1, h2, h3, h4, errIsInteraction]
            | true => exact absurd ⟨h1, h2, h3, h4⟩ hconds
    · have hb : (publisher != "github") = true := by simpa using hpub
      simp [trusted_jwt, hb, errIsInteraction]
  · intro hpub hld hcond hfind
    obtain ⟨h1, h2, h3, h4⟩ := hcond
    subst hpub
    unfold trusted_jwt
    simp only [bne_self_eq_false, Bool.false_eq_true, if_false, hld]
    unfold trusted_project
    rw [trusted_project_checks_ok _ _ h1 h2 h3 h4]
    simp [hfind, errIsPolicyNotFound]

/-- `start` with `promote = false` and the recipient alone in the
permitted list queues the `VOTE_INITIATE` task. -/
theorem start_self_permitted (env : StartEnv) (a pn vn rev : String) (d : Int)
    (sub bod uid fn : String) (release : Release) :
    start env a pn vn rev d sub bod uid fn release false (some [a]) =
      .ok (TaskModel.voteInitiate release.name a d uid fn sub bod) := by
  unfold start
  simp

/-- `votingRound release = some 1` forces a podling project with a
committee. -/
theorem votingRound_one_project (release : Release)
    (h1 : votingRound release = some 1) :
    ∃ p, release.project = some p ∧ ∃ c, p.committee = some c := by
  cases hproj : release.project with
  | none =>
    simp only [votingRound, isPodling, hproj] at h1
    simp at h1
  | some p =>
    cases hpc : p.committee with
    | none =>
      simp only [votingRound, isPodling, hproj] at h1
      simp [hpc] at h1
    | some c => exact ⟨p, rfl, c, hpc⟩

/-- C2: from phase `CANDIDATE`, `resolve` with result `"passed"` moves
the release to `PREVIEW` when the vote is not a round-one podling vote
(non-podling, or podling round two), keeps the phase at `CANDIDATE` while
recording the archive thread id in `podling_thread_id` on a round-one
podling pass, and `resolve` with result `"failed"` moves the release to
`CANDIDATE_DRAFT`. -/
theorem resolve_phase_transitions (env : ResolveEnv) (pn vn vr fn rb uid : String)
    (release : Release) (task : VoteTask)
    (hname : release.name = pn ++ "-" ++ vn)
    (hphase : release.phase = ReleasePhase.RELEASE_CANDIDATE)
    (hcomm : release.committee.isSome = true)
    (harch : env.archiveUrlCached.isSome = true)
    (hrev : release.latest_revision_number.isSome = true) :
    ∃ out, resolve env pn vn vr fn rb uid release (some task) = .ok out ∧
      (vr = "passed" → votingRound release ≠ some 1 →
        out.release.phase = ReleasePhase.RELEASE_PREVIEW) ∧
      (vr = "passed" → votingRound release = some 1 →
        out.release.phase = ReleasePhase.RELEASE_CANDIDATE ∧
        ∃ url, env.archiveUrlCached = some url ∧
          out.release.podling_thread_id = some (lastField url '/')) ∧
      (vr = "failed" → out.release.phase = ReleasePhase.RELEASE_CANDIDATE_DRAFT) := by
  obtain ⟨c, hc⟩ := Option.isSome_iff_exists.mp hcomm
  obtain ⟨url, hurl⟩ := Option.isSome_iff_exists.mp harch
  obtain ⟨rev, hrevn⟩ := Option.isSome_iff_exists.mp hrev
  unfold resolve
  rw [hname, hphase]
  simp only [bne_self_eq_false, Bool.false_eq_true, if_false, hc, Option.isNone_some]
  by_cases hvr : vr = "passed"
  · subst hvr
    by_cases h1 : votingRound release = some 1
    · obtain ⟨p, hp, c2, hc2⟩ := votingRound_one_project release h1
      unfold resolve_release
      rw [h1, hurl]
      simp only [beq_self_eq_true, Bool.and_self, if_true, hp, hc2, Option.isNone_some,
        Bool.false_eq_true, if_false]
      simp only [hrevn, start_self_permitted]
      refine ⟨_, rfl, ?_, ?_, ?_⟩
      · intro _ hcontra
        exact absurd rfl hcontra
      · intro _ _
        exact ⟨hphase, url, rfl, rfl⟩
      · intro hf
        exact absurd hf (by decide)
    · unfold resolve_release
      have hb : (votingRound release == some 1) = false := beq_eq_false_iff_ne.mpr h1
      simp only [hb, Bool.false_and, Bool.false_eq_true, if_false, beq_self_eq_true, if_true]
      refine ⟨_, rfl, ?_, ?_, ?_⟩
      · intro _ _
        rfl
      · intro _ hcontra
        exact absurd hcontra h1
      · intro hf
        exact absurd hf (by decide)
  · unfold resolve_release
    have hvp : (vr == "passed") = false := beq_eq_false_iff_ne.mpr hvr
    simp only [hvp, Bool.and_false, Bool.false_eq_true, if_false]
    refine ⟨_, rfl, ?_, ?_, ?_⟩
    · intro hcontra _
      exact absurd hcontra hvr
    · intro hcontra _
      exact absurd hcontra hvr
    · intro _
      rfl

/-- Witness for C2: resolving the concrete round-one podling pass leaves
the phase at `RELEASE_CANDIDATE` and stores the last path segment of the
archive URL as the podling thread id. -/
theorem resolve_phase_transitions_witness :
    ∃ out, resolve resolveEnv1 "pod" "1.0" "passed" "Full Name" "body" "uid" podRelease
        (some voteTask1) = .ok out ∧
      out.release.phase = ReleasePhase.RELEASE_CANDIDATE ∧
      out.release.podling_thread_id = some "t1abc" := by
  obtain ⟨out, hok, _h2, h3, _h4⟩ := resolve_phase_transitions resolveEnv1 "pod" "1.0"
    "passed" "Full Name" "body" "uid" podRelease voteTask1 rfl rfl rfl rfl rfl
  obtain ⟨hph, url, hurl, htid⟩ := h3 rfl rfl
  refine ⟨out, hok, hph, ?_⟩
  have hu : url = "https://lists.apache.org/thread/t1abc" := by
    have : (some url : Option String) = some "https://lists.apache.org/thread/t1abc" := by
      rw [← hurl]; rfl
    simpa using this
  rw [htid, hu]
  rfl

/-- The computed result of `resolve_release` on a round-one podling pass:
phase untouched, `podling_thread_id` set from the archive URL, the
incubator-round `VOTE_INITIATE` task addressed to the user-tests address,
followed by the resolution `MESSAGE_SEND` tasks. -/
theorem resolve_release_round1_eq (env : ResolveEnv) (release : Release) (task : VoteTask)
    (fn rb uid url : String) (p : Project) (c : Committee) (rev : String)
    (hurl : env.archiveUrlCached = some url) (hp : release.project = some p)
    (hc : p.committee = some c) (hrev : release.latest_revision_number = some rev) :
    resolve_release env release (some 1) "passed" task fn rb uid =
      Except.ok
        { release := { release with podling_thread_id := some (lastField url '/') },
          voting_round := some 1,
          success_message :=
            "Project PPMC vote marked as passed, and Incubator PMC vote automatically started",
          error_message :=
            (send_resolution { release with podling_thread_id := some (lastField url '/') }
              "passed" rb uid fn task none).1,
          tasks :=
            [TaskModel.voteInitiate release.name env.userTestsAddress task.vote_duration uid
              fn ("[VOTE] Release " ++ p.display_name ++ " " ++ release.version)
              (env.startVoteDefault p.name)] ++
              (send_resolution { release with podling_thread_id := some (lastField url '/') }
                "passed" rb uid fn task none).2,
          preview_revision_created := false } := by
  unfold resolve_release
  simp only [hurl, hp, hc, hrev, Option.isNone_some, Bool.false_eq_true, if_false,
    beq_self_eq_true, Bool.and_self, if_true, start_self_permitted]

/-- C7: on a round-one podling pass, `resolve` keeps the phase, stores
the archive URL's last path segment as `podling_thread_id`, and enqueues
a round-two `VOTE_INITIATE` task — but that task is addressed to
`util.USER_TESTS_ADDRESS` (the `uta` model parameter, with
`"general@incubator.apache.org"` commented out in the source), not to the
incubator PMC list, for every value of that constant. -/
theorem resolve_round1_addressed_to_user_tests (uta : String) :
    (resolve (resolveEnvOf uta) "pod" "1.0" "passed" "Full Name" "body" "uid" podRelease
        (some voteTask1)).toOption.map
      (fun o => (o.release.phase, o.release.podling_thread_id, o.tasks)) =
      some (ReleasePhase.RELEASE_CANDIDATE, some "t1abc",
        [TaskModel.voteInitiate "pod-1.0" uta 72 "uid" "Full Name"
            "[VOTE] Release Pod 1.0" "DEFAULT-BODY",
         TaskModel.messageSend "uid@apache.org" "dev@pod.apache.org"
           "[VOTE] [RESULT] Release Pod 1.0 PASSED" "body\n\n-- \nFull Name (uid)"
           "mid-1"]) := by
  have h0 : resolve (resolveEnvOf uta) "pod" "1.0" "passed" "Full Name" "body" "uid"
      podRelease (some voteTask1) =
      resolve_release (resolveEnvOf uta) podRelease (some 1) "passed" voteTask1
        "Full Name" "body" "uid" := rfl
  rw [h0, resolve_release_round1_eq (resolveEnvOf uta) podRelease voteTask1 "Full Name"
    "body" "uid" "https://lists.apache.org/thread/t1abc" podProject podCommittee "00002"
    rfl rfl rfl rfl]
  rfl

/-- C9: `all_releases` returns its entries in non-increasing version
order — under the PEP-440 key when every version parses, and otherwise
under the fallback `sort_key`, whose numeric components (tagged into the
left summand) sort before string components at the same position. -/
theorem all_releases_sorted {P : Type} [LinearOrder P] (parse : String → Option P)
    (rs : List Release) :
    ((∀ r ∈ rs, (parse r.version).isSome = true) →
      (all_releases parse rs).Pairwise (fun a b => pepKey parse b ≤ pepKey parse a)) ∧
    ((¬∀ r ∈ rs, (parse r.version).isSome = true) →
      (all_releases parse rs).Pairwise
        (fun a b => sort_key b.version ≤ sort_key a.version)) ∧
    (∀ (n : Int) (s : String),
      (toLex (Sum.inl n) : Int ⊕ₗ String) < toLex (Sum.inr s)) := by
  refine ⟨?_, ?_, fun n s => Sum.Lex.inl_lt_inr n s⟩
  · intro hall
    have hcond : rs.all (fun r => (parse r.version).isSome) = true :=
      List.all_eq_true.mpr hall
    unfold all_releases
    rw [if_pos hcond]
    have hs := @List.sorted_mergeSort Release
      (fun a b : Release => decide (pepKey parse b ≤ pepKey parse a))
      (fun a b c hab hbc =>
        decide_eq_true (le_trans (of_decide_eq_true hbc) (of_decide_eq_true hab)))
      (fun a b => by
        rcases le_total (pepKey parse b) (pepKey parse a) with h | h <;> simp [h]) rs
    exact hs.imp (fun h => of_decide_eq_true h)
  · intro hall
    have hcond : ¬rs.all (fun r => (parse r.version).isSome) = true :=
      fun hc => hall (List.all_eq_true.mp hc)
    unfold all_releases
    rw [if_neg hcond]
    have hs := @List.sorted_mergeSort Release
      (fun a b : Release => decide (sort_key b.version ≤ sort_key a.version))
      (fun a b c hab hbc =>
        decide_eq_true (le_trans (of_decide_eq_true hbc) (of_decide_eq_true hab)))
      (fun a b => by
        rcases le_total (sort_key b.version) (sort_key a.version) with h | h <;> simp [h]) rs
    exact hs.imp (fun h => of_decide_eq_true h)

/-- Witness for C9: with an always-failing parser the fallback key is
used; versions `"2"` and `"10"` come out numerically descending. -/
theorem all_releases_sorted_witness :
    (all_releases (fun _v => (none : Option Nat)) [relVer2, relVer10]).Pairwise
      (fun a b => sort_key b.version ≤ sort_key a.version) :=
  (all_releases_sorted (fun _v => (none : Option Nat)) [relVer2, relVer10]).2.1
    (fun h => by simpa using h relVer2 (by simp))

/-- Witness for C8: the scenario of the spec's S6 with an empty policy
table — a well-formed GitHub claim set whose workflow path is absent from
every compose allowlist fails with `ReleasePolicyNotFound`. -/
theorem trusted_jwt_errors_witness :
    errIsPolicyNotFound (trusted_jwt (fun _z => some "uid") [] [] "github"
      ⟨"42", "apache/foo", "apache/foo/.github/workflows/release.yml@refs/heads/main"⟩
      TrustedProjectPhase.COMPOSE) = true :=
  (trusted_jwt_errors (fun _z => some "uid") [] [] "github"
      ⟨"42", "apache/foo", "apache/foo/.github/workflows/release.yml@refs/heads/main"⟩
      TrustedProjectPhase.COMPOSE "uid").2.2 rfl rfl
    ⟨by decide, by decide, by decide, by decide⟩ rfl

end ATR
